import Mathlib

/-!
Shallow embedding of the hostname-resolution and custom-domain lifecycle
component of the platform template (src/src/cloudflare-api.ts, the setup
scripts, and the registry lookups in the data layer), together with
theorems settling the specification claims.

Outbound HTTP is modelled explicitly: every embedded operation takes the
responses the upstream would give (a thrown transport error is `Except.error`)
and returns, alongside its result, the list of requests it issued, so that
call-count properties ("no delete call", "one create attempt") are provable.
JavaScript truthiness on optional strings (empty string is falsy) is modelled
by `truthy` / `jsOrStr`.
-/

namespace Platform

/-- JS truthiness of an optional string: `undefined` and `""` are falsy. -/
def truthy : Option String → Bool
  | none => false
  | some s => !s.isEmpty

/-- JS `a || b` on two optional strings (empty string falls through). -/
def jsOrStr : Option String → Option String → Option String
  | some s, b => if s.isEmpty then b else some s
  | none, b => b

/-- JS `a || "default"` for an optional string (empty string falls through). -/
def jsOrDefault : Option String → String → String
  | some s, d => if s.isEmpty then d else s
  | none, d => d

/-- `pat` occurs as a contiguous sublist of `s`. -/
def hasSubList (s pat : List Char) : Bool :=
  match s with
  | [] => pat.isEmpty
  | _ :: rest => List.isPrefixOf pat s || hasSubList rest pat

/-- Case-sensitive substring containment, modelling JS `String.includes`. -/
def containsSub (s pat : String) : Bool :=
  hasSubList s.toList pat.toList

/-- Worker environment bindings consumed by `cloudflare-api.ts`. -/
structure Env where
  CLOUDFLARE_API_TOKEN : Option String
  DISPATCH_NAMESPACE_API_TOKEN : Option String
  CLOUDFLARE_ZONE_ID : Option String
  deriving Repr, DecidableEq

/-- `isApiConfigured` from src/src/cloudflare-api.ts: a zone id and at least
one of the two API tokens must be set (JS truthiness). -/
def isApiConfigured (e : Env) : Bool :=
  let hasAuth := truthy e.CLOUDFLARE_API_TOKEN || truthy e.DISPATCH_NAMESPACE_API_TOKEN
  truthy e.CLOUDFLARE_ZONE_ID && hasAuth

/-- One error entry of the upstream response envelope (`types.ts`). -/
structure ApiError where
  code : Int
  message : String
  deriving Repr, DecidableEq

/-! ## Custom hostname operations (src/src/cloudflare-api.ts)

Each operation takes the upstream responses it would observe (`Except.error`
is a thrown transport/parse failure) and returns its result together with the
list of API requests it issued. -/

/-- One entry of an `ssl.validation_records` array. -/
structure ValidationRecord where
  txt_name : Option String
  txt_value : Option String
  http_url : Option String
  http_body : Option String
  deriving Repr, DecidableEq

/-- The `ssl` block of an upstream custom-hostname record, as parsed. -/
structure UpstreamSsl where
  status : String
  method : Option String
  validation_method : Option String
  validation_errors : Option (List String)
  validation_records : Option (List ValidationRecord)
  deriving Repr, DecidableEq

/-- An upstream custom-hostname record as parsed by `getCustomHostnameStatus`. -/
structure UpstreamHostname where
  status : String
  ssl : Option UpstreamSsl
  verification_errors : Option (List String)
  deriving Repr, DecidableEq

/-- Parsed response of the hostname-list call in `getCustomHostnameStatus`:
the HTTP `ok` flag and status code plus the API envelope. -/
structure StatusListResponse where
  ok : Bool
  status : Nat
  success : Bool
  errors : Option (List ApiError)
  result : Option (List UpstreamHostname)
  deriving Repr, DecidableEq

/-- The normalized `ssl` block built by `getCustomHostnameStatus`. -/
structure NormalizedSsl where
  status : String
  validation_method : Option String
  validation_errors : List String
  validation_records : List ValidationRecord
  deriving Repr, DecidableEq

/-- The `CustomHostnameStatus` value returned to callers. -/
structure CustomHostnameStatus where
  status : String
  ssl : Option NormalizedSsl
  verification_errors : Option (List String)
  deriving Repr, DecidableEq

/-- The `ssl.settings` object sent by `createCustomHostname`. -/
structure SslSettings where
  http2 : String
  min_tls_version : String
  tls_1_3 : String
  deriving Repr, DecidableEq

/-- The `ssl` object sent by `createCustomHostname`. -/
structure CreateSslConfig where
  method : String
  type : String
  settings : SslSettings
  deriving Repr, DecidableEq

/-- The JSON body sent by `createCustomHostname`. -/
structure CreateHostnameBody where
  hostname : String
  ssl : CreateSslConfig
  deriving Repr, DecidableEq

/-- Requests the custom-hostname operations can issue. -/
inductive ApiRequest where
  | listHostnames (zoneId hostname : String)
  | createHostname (zoneId : String) (body : CreateHostnameBody)
  | removeHostname (zoneId hostnameId : String)
  deriving Repr, DecidableEq

/-- The body `createCustomHostname` builds: HTTP validation, DV certificate,
HTTP/2 on, minimum TLS 1.2, TLS 1.3 on. -/
def createHostnameBody (hostname : String) : CreateHostnameBody :=
  ⟨hostname, ⟨"http", "dv", ⟨"on", "1.2", "on"⟩⟩⟩

/-- `createCustomHostname`: `false` when unconfigured (no request) or on a
thrown fetch; otherwise the HTTP `ok` flag of the response. -/
def createCustomHostname (e : Env) (hostname : String) (resp : Except Unit Bool) :
    Bool × List ApiRequest :=
  if !isApiConfigured e then (false, [])
  else
    let req := ApiRequest.createHostname (e.CLOUDFLARE_ZONE_ID.getD "") (createHostnameBody hostname)
    match resp with
    | .error _ => (false, [req])
    | .ok okFlag => (okFlag, [req])

/-- The sanitized user-facing message for auth-related upstream failures. -/
def sanitizedAuthMessage : String :=
  "Custom domains require additional setup. Please contact the platform administrator."

/-- An `error`-status result carrying the given verification errors. -/
def errorStatus (msgs : List String) : CustomHostnameStatus :=
  ⟨"error", none, some msgs⟩

/-- `result.errors?.[0]?.message || 'API request failed'`. -/
def firstErrorMessage (errors : Option (List ApiError)) : String :=
  match errors with
  | some (err :: _) => if err.message.isEmpty then "API request failed" else err.message
  | _ => "API request failed"

/-- Condition under which the raw upstream error is replaced by
`sanitizedAuthMessage`: the message contains the literal substring
`Authentication` or `authorization`, or the HTTP status is 403. -/
def authErrorCondition (errorMsg : String) (status : Nat) : Bool :=
  containsSub errorMsg "Authentication" || containsSub errorMsg "authorization" || status == 403

/-- Normalization of an upstream `ssl` block: validation method is
`method || validation_method` (JS falsy fallthrough), absent arrays become
empty lists. -/
def normalizeSsl (s : UpstreamSsl) : NormalizedSsl :=
  ⟨s.status, jsOrStr s.method s.validation_method,
   s.validation_errors.getD [], s.validation_records.getD []⟩

/-- `getCustomHostnameStatus` from src/src/cloudflare-api.ts. -/
def getCustomHostnameStatus (e : Env) (hostname : String)
    (resp : Except Unit StatusListResponse) : CustomHostnameStatus × List ApiRequest :=
  if !isApiConfigured e then (errorStatus ["API not configured"], [])
  else
    let req := ApiRequest.listHostnames (e.CLOUDFLARE_ZONE_ID.getD "") hostname
    match resp with
    | .error _ => (errorStatus ["Network error"], [req])
    | .ok r =>
      if !r.ok || !r.success then
        let errorMsg := firstErrorMessage r.errors
        if authErrorCondition errorMsg r.status then
          (errorStatus [sanitizedAuthMessage], [req])
        else
          (errorStatus [errorMsg], [req])
      else
        match r.result with
        | none => (⟨"not_found", none, none⟩, [req])
        | some [] => (⟨"not_found", none, none⟩, [req])
        | some (h :: _) =>
          (⟨h.status, h.ssl.map normalizeSsl, some (h.verification_errors.getD [])⟩, [req])

/-- A record of the id-only parse used by `deleteCustomHostname`. -/
structure IdRecord where
  id : String
  deriving Repr, DecidableEq

/-- Parsed response of the lookup call in `deleteCustomHostname`. -/
structure IdListResponse where
  ok : Bool
  success : Bool
  result : Option (List IdRecord)
  deriving Repr, DecidableEq

/-- The two upstream responses `deleteCustomHostname` may consume. -/
structure DeleteWorld where
  listResp : Except Unit IdListResponse
  deleteResp : Except Unit Bool
  deriving Repr

/-- `deleteCustomHostname`: list by hostname, then delete by the first
record's id; `false` unless the delete response is HTTP-ok. -/
def deleteCustomHostname (e : Env) (hostname : String) (w : DeleteWorld) :
    Bool × List ApiRequest :=
  if !isApiConfigured e then (false, [])
  else
    let zone := e.CLOUDFLARE_ZONE_ID.getD ""
    let listReq := ApiRequest.listHostnames zone hostname
    match w.listResp with
    | .error _ => (false, [listReq])
    | .ok r =>
      match r.result.getD [] with
      | [] => (false, [listReq])
      | h :: _ =>
        if !r.ok || !r.success then (false, [listReq])
        else
          let delReq := ApiRequest.removeHostname zone h.id
          match w.deleteResp with
          | .error _ => (false, [listReq, delReq])
          | .ok okFlag => (okFlag, [listReq, delReq])

end Platform

namespace Platform

/-- The spec sentence "message mentions authorization/authentication" read
literally: case-insensitive containment of either word. -/
def mentionsAuthSpec (msg : String) : Bool :=
  hasSubList (msg.toList.map Char.toLower) "authorization".toList ||
  hasSubList (msg.toList.map Char.toLower) "authentication".toList

/-! ## Setup wizard: sensitive-value masking (scripts/setup.js and the typed
setup script) -/

/-- The question words marking a prompted default as sensitive. -/
def sensitivePatterns : List String := ["TOKEN", "SECRET", "KEY", "PASSWORD"]

/-- `question.toUpperCase()` contains one of the sensitive words. -/
def isSensitiveQuestion (question : String) : Bool :=
  sensitivePatterns.any (fun p => hasSubList (question.toList.map Char.toUpper) p.toList)

/-- `maskSensitiveValue`: sensitive defaults longer than 8 characters are
shown as first-4 + `...` + last-4; everything else is returned unchanged. -/
def maskSensitiveValue (question value : String) : String :=
  if isSensitiveQuestion question = true ∧ 8 < value.length then
    value.take 4 ++ "..." ++ value.drop (value.length - 4)
  else value

/-- The prompt line `promptWithDefault` displays for a non-empty default. -/
def promptDisplayedLine (question value : String) : String :=
  question ++ " [" ++ maskSensitiveValue question value ++ "]: "

/-! ## Setup wizard: zone auto-detection (`detectZoneForDomain` in the typed
setup script; `detectZoneId` in scripts/setup-quick.js) -/

/-- A zone as returned by the zone-by-name lookup. -/
structure Zone where
  id : String
  name : String
  deriving Repr, DecidableEq

/-- Parsed response of one `/zones?name=...` query. -/
structure ZoneListResponse where
  success : Bool
  result : Option (List Zone)
  deriving Repr, DecidableEq

/-- Split a character list at every dot (JS `split('.')`). -/
def splitDotsAux (cur : List Char) : List Char → List (List Char)
  | [] => [cur.reverse]
  | c :: rest =>
    if c == '.' then cur.reverse :: splitDotsAux [] rest
    else splitDotsAux (c :: cur) rest

/-- The domain's labels: `domain.split('.')`. -/
def splitDots (s : String) : List String :=
  (splitDotsAux [] s.toList).map String.mk

/-- Join labels back with dots (JS `parts.join('.')`). -/
def joinDots : List String → String
  | [] => ""
  | [x] => x
  | x :: rest => x ++ "." ++ joinDots rest

/-- The candidate zone names tried for a domain: the domain with 0, 1, ...
leftmost labels stripped, the bare final label excluded (loop bound
`i < parts.length - 1`). -/
def zoneCandidates (domain : String) : List String :=
  let parts := splitDots domain
  (List.range (parts.length - 1)).map (fun i => joinDots (parts.drop i))

/-- A query counts as a hit when `success` and the result array non-empty;
the first zone of the array is taken. -/
def zoneHit (resp : ZoneListResponse) : Option Zone :=
  if resp.success then (resp.result.getD []).head? else none

/-- The detection loop over the candidate names: stop at the first hit; a
thrown lookup aborts the whole detection (outer catch). Returns the detected
zone and the list of names queried, in order. -/
def detectZoneAux (lookup : String → Except Unit ZoneListResponse) :
    List String → Option Zone × List String
  | [] => (none, [])
  | c :: rest =>
    match lookup c with
    | .error _ => (none, [c])
    | .ok resp =>
      match zoneHit resp with
      | some z => (some z, [c])
      | none =>
        let next := detectZoneAux lookup rest
        (next.1, c :: next.2)

/-- `detectZoneForDomain`: try the progressively stripped candidate names. -/
def detectZoneForDomain (lookup : String → Except Unit ZoneListResponse)
    (domain : String) : Option Zone × List String :=
  detectZoneAux lookup (zoneCandidates domain)

/-- A mock account with only the zone `c.com` registered. -/
def sampleZoneLookup : String → Except Unit ZoneListResponse := fun n =>
  .ok ⟨true, some (if n == "c.com" then [⟨"z3", "c.com"⟩] else [])⟩

/-! ## Setup reconciler steps (the typed setup script, `SetupManager`) -/

/-- `errors?.[0]?.message || d`. -/
def firstErrMsgOr (errors : Option (List ApiError)) (d : String) : String :=
  match errors with
  | some (err :: _) => if err.message.isEmpty then d else err.message
  | _ => d

/-- `/user/tokens/verify` parsed response. -/
structure VerifyResponse where
  ok : Bool
  success : Bool
  errors : Option (List ApiError)
  deriving Repr, DecidableEq

/-- Account-lookup parsed response (`result` carries the account name). -/
structure AccountResponse where
  success : Bool
  result : Option String
  deriving Repr, DecidableEq

/-- `validateCredentials` (step 1): the only step that aborts the run.
A thrown call, a non-ok verify response or an unsuccessful envelope all
raise `Credential validation failed: ...`; on success the account name (when
the account lookup succeeds) is recorded. -/
def validateCredentials (verify : Except String VerifyResponse)
    (account : Except String AccountResponse) : Except String (Option String) :=
  match verify with
  | .error m => .error ("Credential validation failed: " ++ m)
  | .ok v =>
    if !v.ok || !v.success then
      .error ("Credential validation failed: " ++ firstErrMsgOr v.errors "Invalid credentials")
    else
      match account with
      | .error m => .error ("Credential validation failed: " ++ m)
      | .ok a => .ok (if a.success then a.result else none)

/-- One dispatch namespace as listed upstream. -/
structure NamespaceInfo where
  id : String
  name : String
  deriving Repr, DecidableEq

/-- Parsed response of the dispatch-namespace listing call. -/
structure NsListResponse where
  ok : Bool
  status : Nat
  success : Bool
  errors : Option (List ApiError)
  result : Option (List NamespaceInfo)
  deriving Repr, DecidableEq

/-- Some upstream error entry has the given code. -/
def hasErrorCode (errors : Option (List ApiError)) (c : Int) : Bool :=
  (errors.getD []).any (fun e => e.code == c)

/-- The state the access probe writes into the config. -/
structure WfpProbe where
  wfpAvailable : Bool
  existingNamespaces : Option (List NamespaceInfo)
  deriving Repr, DecidableEq

/-- `checkWorkersForPlatformsAccess` (step 2): HTTP 403 or provider error
code 10121 (and any other failure, thrown calls included) record
`wfpAvailable = false`; only an ok response records the listed namespaces. -/
def checkWorkersForPlatformsAccess (resp : Except String NsListResponse) : WfpProbe :=
  match resp with
  | .error _ => ⟨false, none⟩
  | .ok r =>
    if r.status == 403 || hasErrorCode r.errors 10121 then ⟨false, none⟩
    else if r.ok then ⟨true, some (r.result.getD [])⟩
    else ⟨false, none⟩

/-- The fixed dispatch-namespace name the setup script ensures. -/
def namespaceName : String := "workers-platform-template"

/-- Parsed response of the namespace-create call (`result` is the new id). -/
structure CreateNsResponse where
  ok : Bool
  success : Bool
  errors : Option (List ApiError)
  result : Option String
  deriving Repr, DecidableEq

/-- How one run of the ensure-namespace step ended. No constructor aborts the
run: the step catches its own errors and at worst logs a warning. -/
inductive EnsureNsOutcome where
  | skipped
  | reused (id : String)
  | created (id : String)
  | alreadyExists
  | warned (msg : String)
  deriving Repr, DecidableEq

/-- The spec's `existed` flag of the namespace step: the namespace was found
to exist (reused from the listing, or the create answered "already exists"). -/
def EnsureNsOutcome.existed : EnsureNsOutcome → Bool
  | .reused _ => true
  | .alreadyExists => true
  | _ => false

/-- `ensureDispatchNamespace` (step 3), paired with the number of create
calls it issued: skip when Workers for Platforms is unavailable; reuse the id
when the name is already in the listing (no create call); otherwise create,
treating an "already exists" error answer as success. -/
def ensureDispatchNamespace (probe : WfpProbe)
    (createResp : Except String CreateNsResponse) : EnsureNsOutcome × Nat :=
  if !probe.wfpAvailable then (.skipped, 0)
  else
    match (probe.existingNamespaces.getD []).find? (fun ns => ns.name == namespaceName) with
    | some ns => (.reused ns.id, 0)
    | none =>
      match createResp with
      | .error m => (.warned m, 1)
      | .ok r =>
        if r.ok && r.success && truthy r.result then (.created (r.result.getD ""), 1)
        else if (r.errors.getD []).any (fun e => containsSub e.message "already exists") then
          (.alreadyExists, 1)
        else (.warned (firstErrMsgOr r.errors "undefined"), 1)

/-- The minted token of a successful `/user/tokens` call. -/
structure TokenResult where
  id : String
  value : String
  deriving Repr, DecidableEq

/-- Parsed response of the token-mint call. -/
structure TokenMintResponse where
  ok : Bool
  success : Bool
  errors : Option (List ApiError)
  result : Option TokenResult
  deriving Repr, DecidableEq

/-- What the token step records: the runtime token and whether a new one was
minted. -/
structure DispatchTokenOutcome where
  dispatchToken : String
  createdToken : Bool
  deriving Repr, DecidableEq

/-- `ensureDispatchToken` (step 4): keep the original token when it already
has namespace permissions; otherwise mint a scoped token; on any mint
failure (thrown call or unsuccessful response) fall back to the original
token and continue. -/
def ensureDispatchToken (originalToken : String) (testOk : Except String Bool)
    (mint : Except String TokenMintResponse) : DispatchTokenOutcome :=
  match testOk with
  | .error _ => ⟨originalToken, false⟩
  | .ok true => ⟨originalToken, false⟩
  | .ok false =>
    match mint with
    | .error _ => ⟨originalToken, false⟩
    | .ok t =>
      if t.ok && t.success && truthy (t.result.map TokenResult.value) then
        ⟨(t.result.map TokenResult.value).getD "", true⟩
      else ⟨originalToken, false⟩

/-- All upstream responses one reconciliation run can consume. -/
structure SetupWorld where
  verifyResp : Except String VerifyResponse
  accountResp : Except String AccountResponse
  nsListResp : Except String NsListResponse
  createNsResp : Except String CreateNsResponse
  tokenTestResp : Except String Bool
  tokenMintResp : Except String TokenMintResponse

/-- The run's final report. -/
structure SetupReport where
  accountName : Option String
  wfp : WfpProbe
  nsOutcome : EnsureNsOutcome
  nsCreateCalls : Nat
  token : DispatchTokenOutcome
  deriving Repr, DecidableEq

/-- The reconciliation run, steps 1 to 4 in order (the file-writing steps of
the wizard are outside the specified core): only step 1 can abort; steps 2-4
are total functions of their responses. -/
def runSetup (w : SetupWorld) (originalToken : String) : Except String SetupReport :=
  match validateCredentials w.verifyResp w.accountResp with
  | .error m => .error m
  | .ok accountName =>
    let probe := checkWorkersForPlatformsAccess w.nsListResp
    let ns := ensureDispatchNamespace probe w.createNsResp
    let tok := ensureDispatchToken originalToken w.tokenTestResp w.tokenMintResp
    .ok ⟨accountName, probe, ns.1, ns.2, tok⟩

/-- A stateful mock upstream for the namespace step: the listing reflects
whether the namespace currently exists; a create call succeeds (id `ns-1`)
when it is absent and materialises it, and answers "already exists" when it
is present. -/
def mockNsListing (nsExists : Bool) : NsListResponse :=
  ⟨true, 200, true, none, some (if nsExists then [⟨"ns-1", namespaceName⟩] else [])⟩

/-- The mock upstream's answer to a create call in a given state. -/
def mockNsCreate (nsExists : Bool) : CreateNsResponse :=
  if nsExists then
    ⟨false, false, some [⟨100117, "a namespace with this name already exists"⟩], none⟩
  else ⟨true, true, none, some "ns-1"⟩

/-- One run of the probe + ensure-namespace steps against the mock upstream:
the outcome, the number of create calls, and the upstream state afterwards. -/
def ensureNsRun (nsExists : Bool) : (EnsureNsOutcome × Nat) × Bool :=
  let probe := checkWorkersForPlatformsAccess (.ok (mockNsListing nsExists))
  let res := ensureDispatchNamespace probe (.ok (mockNsCreate nsExists))
  (res, nsExists || res.2 > 0)

/-! ## Hostname classification (registry lookups from the data layer; the
request-time classifier itself is modelled from the spec) -/

/-- A tenant project row (src/src/types.ts). -/
structure Project where
  id : String
  name : String
  subdomain : String
  custom_hostname : Option String
  script_content : String
  created_on : String
  modified_on : String
  deriving Repr, DecidableEq

/-- `GetProjectBySubdomain` (data layer): the first row whose `subdomain`
matches the label. -/
def GetProjectBySubdomain (registry : List Project) (subdomain : String) :
    Option Project :=
  registry.find? (fun p => p.subdomain == subdomain)

/-- `GetProjectByCustomHostname` (data layer): the first row whose
`custom_hostname` matches the hostname. -/
def GetProjectByCustomHostname (registry : List Project) (hostname : String) :
    Option Project :=
  registry.find? (fun p => p.custom_hostname == some hostname)

/-- The four classes of an inbound request hostname. -/
inductive HostnameClass where
  | platform
  | tenantSubdomain (label : String) (p : Project)
  | customHostname (p : Project)
  | unresolved
  deriving Repr, DecidableEq

/-- `s` ends with `suffix` (suffix test over the character lists). -/
def strEndsWith (s suffix : String) : Bool :=
  List.isPrefixOf suffix.toList.reverse s.toList.reverse

/-- The string with `n` trailing characters removed. -/
def strDropRight (s : String) (n : Nat) : String :=
  String.mk (s.toList.take (s.toList.length - n))

/-- Hostname normalization per the spec: lower-case, strip trailing dots. -/
def normalizeHost (h : String) : String :=
  String.mk (((h.toList.map Char.toLower).reverse.dropWhile (fun c => c == '.')).reverse)

/-- Modelled from the spec: the reserved platform routes — the root/apex and
the builder host `build.{root}` (spec §4.3 step 1 with the builder-UI host of
the system overview). -/
def reservedHosts (root : String) : List String := [root, "build." ++ root]

/-- Modelled from the spec: the request-time hostname classifier (§4.3) is
not among the sources under src/ — only the registry lookups it resolves
through are — so its case analysis is embedded from the spec's words:
reserved platform route → `platform`; `{label}.{root}` with a dot-free label
→ tenant subdomain resolved by label; otherwise a candidate custom hostname
resolved by exact match; no registry match → `unresolved`. -/
def classifyNormalized (registry : List Project) (root host : String) :
    HostnameClass :=
  if host ∈ reservedHosts root then .platform
  else if strEndsWith host ("." ++ root)
      && !(strDropRight host ("." ++ root).length).toList.any (fun c => c == '.') then
    match GetProjectBySubdomain registry (strDropRight host ("." ++ root).length) with
    | some p => .tenantSubdomain (strDropRight host ("." ++ root).length) p
    | none => .unresolved
  else
    match GetProjectByCustomHostname registry host with
    | some p => .customHostname p
    | none => .unresolved

/-- Modelled from the spec: classification of a raw request host against a
root domain — both are normalized first (case-insensitive matching, trailing
dots stripped). -/
def classifyHostname (registry : List Project) (rootDomain requestHost : String) :
    HostnameClass :=
  classifyNormalized registry (normalizeHost rootDomain) (normalizeHost requestHost)

/-- Sample tenant resolved by subdomain label. -/
def sampleAcme : Project := ⟨"p1", "Acme", "acme", none, "code", "t0", "t1"⟩

/-- Sample tenant resolved by custom hostname. -/
def sampleShop : Project :=
  ⟨"p2", "Shop", "shopco", some "shop.example.org", "code", "t0", "t1"⟩

/-- Sample registry for the classifier scenarios. -/
def sampleRegistry : List Project := [sampleAcme, sampleShop]

/-- A configured environment used by concrete witnesses. -/
def envOkT : Env := ⟨some "tok", none, some "zone1"⟩

/-- `jsOrStr a b` keeps `a` exactly when it is present and non-empty. -/
theorem jsOrStr_eq_if (a b : Option String) :
    jsOrStr a b = if truthy a then a else b := by
  cases a with
  | none => simp [jsOrStr, truthy]
  | some s => by_cases h : s.isEmpty <;> simp [jsOrStr, truthy, h]

section

example : truthy (some "") = false := by decide
example : isApiConfigured ⟨some "t", none, some "z"⟩ = true := by decide
example : isApiConfigured ⟨some "t", some "u", none⟩ = false := by decide
example : jsOrStr (some "") (some "dns") = some "dns" := by decide
example : containsSub "foo authorization bar" "authorization" = true := by decide
example : containsSub "authentication" "Authentication" = false := by decide

example : createCustomHostname envOkT "a.com" (.ok true) =
    (true, [.createHostname "zone1" ⟨"a.com", ⟨"http", "dv", ⟨"on", "1.2", "on"⟩⟩⟩]) := by decide

example : getCustomHostnameStatus envOkT "foo.com"
    (.ok ⟨false, 403, false, none, none⟩) =
    (errorStatus [sanitizedAuthMessage], [.listHostnames "zone1" "foo.com"]) := by decide

example : getCustomHostnameStatus envOkT "foo.com"
    (.ok ⟨true, 200, true, none, some []⟩) =
    (⟨"not_found", none, none⟩, [.listHostnames "zone1" "foo.com"]) := by decide

example : getCustomHostnameStatus envOkT "foo.com"
    (.ok ⟨true, 200, true, none,
      some [⟨"pending", some ⟨"pending_validation", some "http", none, none, none⟩, none⟩]⟩) =
    (⟨"pending", some ⟨"pending_validation", some "http", [], []⟩, some []⟩,
     [.listHostnames "zone1" "foo.com"]) := by decide

example : deleteCustomHostname envOkT "foo.com" ⟨.ok ⟨true, true, some []⟩, .ok true⟩ =
    (false, [.listHostnames "zone1" "foo.com"]) := by decide

example : deleteCustomHostname envOkT "foo.com" ⟨.ok ⟨true, true, some [⟨"id9"⟩]⟩, .ok true⟩ =
    (true, [.listHostnames "zone1" "foo.com", .removeHostname "zone1" "id9"]) := by decide
end

/-- Claim C1 (counterexample): an upstream failure whose message mentions
authentication (lower-case) is surfaced raw, not sanitized — the source
matches only the exact substrings `Authentication` and `authorization`, so the
claim's case-insensitive "mentions authorization/authentication" trigger is
wrong. -/
theorem getStatus_sanitize_counterexample :
    mentionsAuthSpec "authentication required" = true ∧
    getCustomHostnameStatus envOkT "foo.com"
      (.ok ⟨false, 500, false, some [⟨10000, "authentication required"⟩], none⟩) =
      (errorStatus ["authentication required"], [.listHostnames "zone1" "foo.com"]) ∧
    errorStatus ["authentication required"] ≠ errorStatus [sanitizedAuthMessage] := by
  refine ⟨by decide, by decide, by decide⟩

/-- Claim C1 (amended): `GetStatus` failure classification. Unconfigured
auth/zone gives `error` with ["API not configured"]; a thrown upstream call
gives `error` with ["Network error"]; a non-success response whose first
error message contains the literal substring `Authentication` or
`authorization`, or whose HTTP status is 403, gives `error` with exactly the
sanitized message; any other non-success response gives `error` carrying the
first upstream message (or "API request failed" when none). -/
theorem getStatus_failure_table (e : Env) (host : String)
    (resp : Except Unit StatusListResponse) :
    (isApiConfigured e = false →
      getCustomHostnameStatus e host resp = (errorStatus ["API not configured"], [])) ∧
    (isApiConfigured e = true → resp = .error () →
      (getCustomHostnameStatus e host resp).1 = errorStatus ["Network error"]) ∧
    (∀ r, isApiConfigured e = true → resp = .ok r → (r.ok = false ∨ r.success = false) →
      (authErrorCondition (firstErrorMessage r.errors) r.status = true →
        (getCustomHostnameStatus e host resp).1 = errorStatus [sanitizedAuthMessage]) ∧
      (authErrorCondition (firstErrorMessage r.errors) r.status = false →
        (getCustomHostnameStatus e host resp).1 = errorStatus [firstErrorMessage r.errors])) := by
  refine ⟨fun hc => ?_, fun hc hr => ?_,
    fun r hc hr hfail => ⟨fun hauth => ?_, fun hauth => ?_⟩⟩
  · simp [getCustomHostnameStatus, hc]
  · subst hr; simp [getCustomHostnameStatus, hc]
  · subst hr
    have hb : (!r.ok || !r.success) = true := by
      rcases hfail with h | h <;> simp [h]
    simp [getCustomHostnameStatus, hc, hb, hauth]
  · subst hr
    have hb : (!r.ok || !r.success) = true := by
      rcases hfail with h | h <;> simp [h]
    simp [getCustomHostnameStatus, hc, hb, hauth]

/-- Witness for `getStatus_failure_table`: HTTP 403 yields the sanitized
message, as in the spec's mocked-403 scenario. -/
theorem getStatus_failure_table_witness :
    (getCustomHostnameStatus envOkT "foo.com"
      (.ok ⟨false, 403, false, none, none⟩)).1 = errorStatus [sanitizedAuthMessage] :=
  ((getStatus_failure_table envOkT "foo.com"
      (.ok ⟨false, 403, false, none, none⟩)).2.2 ⟨false, 403, false, none, none⟩
      (by decide) rfl (Or.inl rfl)).1 (by decide)

/-- Claim C2 (counterexample): an upstream record whose `ssl.method` is
present but empty is normalized to `ssl.validation_method`, not to the
present `method` field — JS `||` treats the empty string as absent. -/
theorem getStatus_method_counterexample :
    (⟨"pending_validation", some "", some "dns", none, none⟩ : UpstreamSsl).method = some "" ∧
    (getCustomHostnameStatus envOkT "foo.com"
        (.ok ⟨true, 200, true, none,
          some [⟨"pending", some ⟨"pending_validation", some "", some "dns", none, none⟩,
                none⟩]⟩)).1 =
      ⟨"pending", some ⟨"pending_validation", some "dns", [], []⟩, some []⟩ ∧
    (some "dns" : Option String) ≠ some "" := by
  refine ⟨rfl, by decide, by decide⟩

/-- Claim C2 (amended): on an upstream success, an empty or absent result set
gives `not_found` with no validation data; otherwise only the first record is
mapped: status passed through, validation method is `ssl.method` when present
and non-empty, else `ssl.validation_method`; absent arrays become empty
lists, and `verification_errors` is always a present list. -/
theorem getStatus_success_normalization (e : Env) (host : String)
    (r : StatusListResponse) (hc : isApiConfigured e = true)
    (hok : r.ok = true) (hs : r.success = true) :
    ((r.result = none ∨ r.result = some []) →
      (getCustomHostnameStatus e host (.ok r)).1 = ⟨"not_found", none, none⟩) ∧
    (∀ hd t, r.result = some (hd :: t) →
      (getCustomHostnameStatus e host (.ok r)).1.status = hd.status ∧
      (getCustomHostnameStatus e host (.ok r)).1.verification_errors =
        some (hd.verification_errors.getD []) ∧
      (hd.ssl = none → (getCustomHostnameStatus e host (.ok r)).1.ssl = none) ∧
      (∀ su, hd.ssl = some su →
        (getCustomHostnameStatus e host (.ok r)).1.ssl =
          some ⟨su.status, if truthy su.method then su.method else su.validation_method,
                su.validation_errors.getD [], su.validation_records.getD []⟩)) := by
  have hb : (!r.ok || !r.success) = false := by simp [hok, hs]
  refine ⟨fun hres => ?_, fun hd t hres => ?_⟩
  · rcases hres with hres | hres <;> simp [getCustomHostnameStatus, hc, hb, hres]
  · refine ⟨?_, ?_, fun hssl => ?_, fun su hssl => ?_⟩
    · simp [getCustomHostnameStatus, hc, hb, hres]
    · simp [getCustomHostnameStatus, hc, hb, hres]
    · simp [getCustomHostnameStatus, hc, hb, hres, hssl]
    · simp [getCustomHostnameStatus, hc, hb, hres, hssl, normalizeSsl, jsOrStr_eq_if]

/-- Witness for `getStatus_success_normalization`: the spec's normalization
scenario, `ssl.method = "http"` and no `validation_method` maps to `"http"`. -/
theorem getStatus_success_normalization_witness :
    (getCustomHostnameStatus envOkT "foo.com"
      (.ok ⟨true, 200, true, none,
        some [⟨"pending", some ⟨"pending_validation", some "http", none, none, none⟩,
              none⟩]⟩)).1.ssl =
      some ⟨"pending_validation", some "http", [], []⟩ :=
  ((getStatus_success_normalization envOkT "foo.com"
      ⟨true, 200, true, none,
        some [⟨"pending", some ⟨"pending_validation", some "http", none, none, none⟩, none⟩]⟩
      (by decide) rfl rfl).2
    ⟨"pending", some ⟨"pending_validation", some "http", none, none, none⟩, none⟩ [] rfl).2.2.2
    ⟨"pending_validation", some "http", none, none, none⟩ rfl

/-- Claim C4: `Create` sends a creation request with HTTP-01 ("http"/"dv")
validation, minimum TLS 1.2 and TLS 1.3 enabled; it returns `true` exactly
when the upstream response is HTTP-success, and `false` on a thrown transport
call or missing configuration, never raising. -/
theorem createCustomHostname_contract (e : Env) (host : String)
    (resp : Except Unit Bool) :
    (isApiConfigured e = false → createCustomHostname e host resp = (false, [])) ∧
    (isApiConfigured e = true →
      (createCustomHostname e host resp).2 =
        [.createHostname (e.CLOUDFLARE_ZONE_ID.getD "") (createHostnameBody host)] ∧
      ((createCustomHostname e host resp).1 = true ↔ resp = .ok true)) ∧
    (resp = .error () → (createCustomHostname e host resp).1 = false) ∧
    (createHostnameBody host).ssl = ⟨"http", "dv", ⟨"on", "1.2", "on"⟩⟩ := by
  refine ⟨fun hc => ?_, fun hc => ⟨?_, ?_⟩, fun hr => ?_, rfl⟩
  · simp [createCustomHostname, hc]
  · cases resp <;> simp [createCustomHostname, hc]
  · cases resp with
    | error u => simp [createCustomHostname, hc]
    | ok b => cases b <;> simp [createCustomHostname, hc]
  · subst hr; by_cases hc : isApiConfigured e <;> simp [createCustomHostname, hc]

/-- Witness for `createCustomHostname_contract`: a configured environment and
an HTTP-success response yield `true` with the documented request body. -/
theorem createCustomHostname_contract_witness :
    (createCustomHostname envOkT "shop.example.org" (.ok true)).1 = true :=
  ((createCustomHostname_contract envOkT "shop.example.org" (.ok true)).2.1
    (by decide)).2.mpr rfl

/-- Claim C3: `Delete` lists matching records first; zero matches gives
`false` with no delete request on the transport (the log is exactly the one
list request); a failed lookup or a thrown/failed delete gives `false`; the
result is `true` exactly when the lookup succeeded with at least one match
and the delete call returned HTTP-success. -/
theorem deleteCustomHostname_contract (e : Env) (host : String) (w : DeleteWorld)
    (hc : isApiConfigured e = true) :
    (∀ r, w.listResp = .ok r → r.result.getD [] = [] →
      deleteCustomHostname e host w =
        (false, [.listHostnames (e.CLOUDFLARE_ZONE_ID.getD "") host])) ∧
    (w.listResp = .error () → (deleteCustomHostname e host w).1 = false) ∧
    (∀ r, w.listResp = .ok r → (r.ok = false ∨ r.success = false) →
      (deleteCustomHostname e host w).1 = false) ∧
    (w.deleteResp = .error () → (deleteCustomHostname e host w).1 = false) ∧
    ((deleteCustomHostname e host w).1 = true ↔
      ∃ r rec t, w.listResp = .ok r ∧ r.ok = true ∧ r.success = true ∧
        r.result = some (rec :: t) ∧ w.deleteResp = .ok true) := by
  obtain ⟨lr, dr⟩ := w
  refine ⟨fun r hr hres => ?_, fun hr => ?_, fun r hr hfail => ?_, fun hr => ?_, ?_⟩
  · cases hr
    simp [deleteCustomHostname, hc, hres]
  · cases hr
    simp [deleteCustomHostname, hc]
  · cases hr
    have hb : (!r.ok || !r.success) = true := by
      rcases hfail with h | h <;> simp [h]
    rcases hres : r.result.getD [] with _ | ⟨hd, t⟩ <;>
      cases dr <;> simp [deleteCustomHostname, hc, hres, hb]
  · cases hr
    cases lr with
    | error u => simp [deleteCustomHostname, hc]
    | ok r =>
      rcases hres : r.result.getD [] with _ | ⟨hd, t⟩ <;>
        by_cases hb : (!r.ok || !r.success) = true <;>
          simp [deleteCustomHostname, hc, hres, hb]
  · cases lr with
    | error u =>
      cases u
      simp [deleteCustomHostname, hc]
    | ok r =>
      obtain ⟨rok, rsucc, rres⟩ := r
      cases rres with
      | none =>
        cases dr <;> simp [deleteCustomHostname, hc]
      | some l =>
        cases l with
        | nil => cases dr <;> simp [deleteCustomHostname, hc]
        | cons hd t =>
          cases rok <;> cases rsucc <;>
            cases dr with
              | error u => cases u; simp [deleteCustomHostname, hc]
              | ok b => cases b <;> simp [deleteCustomHostname, hc]

/-- Witness for `deleteCustomHostname_contract`: zero matching records give
`false` and only the list request was issued. -/
theorem deleteCustomHostname_contract_witness :
    deleteCustomHostname envOkT "foo.com" ⟨.ok ⟨true, true, some []⟩, .ok true⟩ =
      (false, [.listHostnames "zone1" "foo.com"]) :=
  (deleteCustomHostname_contract envOkT "foo.com"
      ⟨.ok ⟨true, true, some []⟩, .ok true⟩ (by decide)).1
    ⟨true, true, some []⟩ rfl rfl

/-- Claim C10: whenever the API is unconfigured (falsy zone id, or both API
tokens falsy), `Create`, `GetStatus` and `Delete` return their failure value
with an empty request log — no upstream call at all. -/
theorem unconfigured_no_network (e : Env) (host : String)
    (hc : isApiConfigured e = false) (r₁ : Except Unit Bool)
    (r₂ : Except Unit StatusListResponse) (w : DeleteWorld) :
    createCustomHostname e host r₁ = (false, []) ∧
    getCustomHostnameStatus e host r₂ = (errorStatus ["API not configured"], []) ∧
    deleteCustomHostname e host w = (false, []) ∧
    (isApiConfigured e = false ↔
      (truthy e.CLOUDFLARE_ZONE_ID = false ∨
        (truthy e.CLOUDFLARE_API_TOKEN = false ∧
         truthy e.DISPATCH_NAMESPACE_API_TOKEN = false))) := by
  refine ⟨?_, ?_, ?_, ?_⟩
  · simp [createCustomHostname, hc]
  · simp [getCustomHostnameStatus, hc]
  · simp [deleteCustomHostname, hc]
  · cases hz : truthy e.CLOUDFLARE_ZONE_ID <;>
      cases ha : truthy e.CLOUDFLARE_API_TOKEN <;>
        cases hb : truthy e.DISPATCH_NAMESPACE_API_TOKEN <;>
          simp [isApiConfigured, hz, ha, hb]

/-- Witness for `unconfigured_no_network`: tokens set but no zone id — all
three operations fail without any request. -/
theorem unconfigured_no_network_witness :
    createCustomHostname ⟨some "tok", some "tok2", none⟩ "a.com" (.ok true) = (false, []) :=
  (unconfigured_no_network ⟨some "tok", some "tok2", none⟩ "a.com" (by decide)
    (.ok true) (.error ()) ⟨.ok ⟨true, true, none⟩, .ok true⟩).1

example : zoneCandidates "a.b.c.com" = ["a.b.c.com", "b.c.com", "c.com"] := by decide

example : classifyHostname sampleRegistry "platform.com" "acme.platform.com" =
    .tenantSubdomain "acme" sampleAcme := by decide

example : maskSensitiveValue "Cloudflare API Token" "supersecretvalue123" = "supe...e123" := by
  decide

example : (ensureNsRun false).1 = (.created "ns-1", 1) := by decide

example : detectZoneForDomain sampleZoneLookup "a.b.c.com" =
    (some ⟨"z3", "c.com"⟩, ["a.b.c.com", "b.c.com", "c.com"]) := by decide

/-- The tried names form a prefix of the candidate list, and when a zone is
found the last tried name is the first hit: all earlier queried names
answered without a match. -/
theorem detectZoneAux_first_hit (lookup : String → Except Unit ZoneListResponse)
    (cands : List String) :
    (detectZoneAux lookup cands).2 <+: cands ∧
    (∀ z, (detectZoneAux lookup cands).1 = some z →
      ∃ pre c, (detectZoneAux lookup cands).2 = pre ++ [c] ∧
        (∀ p ∈ pre, ∃ resp, lookup p = .ok resp ∧ zoneHit resp = none) ∧
        ∃ resp, lookup c = .ok resp ∧ zoneHit resp = some z) := by
  induction cands with
  | nil =>
    refine ⟨by simp [detectZoneAux], fun z hz => ?_⟩
    simp [detectZoneAux] at hz
  | cons c rest ih =>
    cases hl : lookup c with
    | error u =>
      refine ⟨?_, fun z hz => ?_⟩
      · simp [detectZoneAux, hl]
      · simp [detectZoneAux, hl] at hz
    | ok resp =>
      cases hz0 : zoneHit resp with
      | some z0 =>
        refine ⟨?_, fun z hz => ?_⟩
        · simp [detectZoneAux, hl, hz0]
        · simp [detectZoneAux, hl, hz0] at hz
          exact ⟨[], c, by simp [detectZoneAux, hl, hz0], by simp,
            resp, hl, by rw [hz0, hz]⟩
      | none =>
        refine ⟨?_, fun z hz => ?_⟩
        · have : (detectZoneAux lookup (c :: rest)).2 =
              c :: (detectZoneAux lookup rest).2 := by
            simp [detectZoneAux, hl, hz0]
          rw [this]
          exact (List.cons_prefix_cons).2 ⟨rfl, ih.1⟩
        · have h1 : (detectZoneAux lookup (c :: rest)).1 =
              (detectZoneAux lookup rest).1 := by
            simp [detectZoneAux, hl, hz0]
          obtain ⟨pre, c', heq, hpre, hhit⟩ := ih.2 z (h1 ▸ hz)
          refine ⟨c :: pre, c', ?_, ?_, hhit⟩
          · simp [detectZoneAux, hl, hz0, heq]
          · intro p hp
            rcases List.mem_cons.1 hp with hp | hp
            · exact hp ▸ ⟨resp, hl, hz0⟩
            · exact hpre p hp

/-- Claim C6: zone auto-detection queries zone-by-name on the candidate names
obtained by progressively stripping the leftmost label, in left-to-right
order — candidate `i` joins the labels from position `i` on, always at least
two labels, so the bare final label is never tried — stopping at the first
non-empty match; for `a.b.c.com` with only `c.com` registered it tries
exactly `a.b.c.com`, `b.c.com`, `c.com` in that order. -/
theorem zoneDetection_order (domain : String)
    (lookup : String → Except Unit ZoneListResponse) :
    ((detectZoneForDomain lookup domain).2 <+: zoneCandidates domain) ∧
    (∀ i, i < (splitDots domain).length - 1 →
      (zoneCandidates domain)[i]? = some (joinDots ((splitDots domain).drop i)) ∧
      2 ≤ ((splitDots domain).drop i).length) ∧
    (∀ z, (detectZoneForDomain lookup domain).1 = some z →
      ∃ pre c, (detectZoneForDomain lookup domain).2 = pre ++ [c] ∧
        (∀ p ∈ pre, ∃ resp, lookup p = .ok resp ∧ zoneHit resp = none) ∧
        ∃ resp, lookup c = .ok resp ∧ zoneHit resp = some z) ∧
    (detectZoneForDomain sampleZoneLookup "a.b.c.com" =
      (some ⟨"z3", "c.com"⟩, ["a.b.c.com", "b.c.com", "c.com"])) := by
  refine ⟨(detectZoneAux_first_hit lookup (zoneCandidates domain)).1,
    fun i hi => ⟨?_, ?_⟩,
    (detectZoneAux_first_hit lookup (zoneCandidates domain)).2, by decide⟩
  · simp [zoneCandidates, List.getElem?_map, List.getElem?_range, hi]
  · have hd : ((splitDots domain).drop i).length = (splitDots domain).length - i :=
      List.length_drop i (splitDots domain)
    omega

/-- Witness for `zoneDetection_order`: the second candidate for `a.b.c.com`
is `b.c.com` and joins two labels or more; detection on the sample account
stops at the hit `c.com` after misses on the longer names. -/
theorem zoneDetection_order_witness :
    (zoneCandidates "a.b.c.com")[1]? =
      some (joinDots ((splitDots "a.b.c.com").drop 1)) ∧
    2 ≤ ((splitDots "a.b.c.com").drop 1).length :=
  (zoneDetection_order "a.b.c.com" sampleZoneLookup).2.1 1 (by decide)

/-- Claim C7: the reconciliation run succeeds exactly when step 1 (credential
validation) does — no later step can abort it; HTTP 403 or provider error
code 10121 on the namespace listing records `wfpAvailable = false` and makes
the namespace step skip without a create call; any failure to mint the
scoped token falls back to the original token and continues. -/
theorem setup_failure_semantics (w : SetupWorld) (tok : String) :
    ((runSetup w tok).isOk = (validateCredentials w.verifyResp w.accountResp).isOk) ∧
    (∀ m, runSetup w tok = .error m →
      validateCredentials w.verifyResp w.accountResp = .error m) ∧
    (∀ r, w.nsListResp = .ok r →
      (r.status == 403 || hasErrorCode r.errors 10121) = true →
      checkWorkersForPlatformsAccess w.nsListResp = ⟨false, none⟩ ∧
      ensureDispatchNamespace (checkWorkersForPlatformsAccess w.nsListResp)
        w.createNsResp = (.skipped, 0)) ∧
    (∀ m, w.tokenTestResp = .ok false → w.tokenMintResp = .error m →
      ensureDispatchToken tok w.tokenTestResp w.tokenMintResp = ⟨tok, false⟩) ∧
    (∀ t, w.tokenTestResp = .ok false → w.tokenMintResp = .ok t →
      (t.ok && t.success && truthy (t.result.map TokenResult.value)) = false →
      ensureDispatchToken tok w.tokenTestResp w.tokenMintResp = ⟨tok, false⟩) := by
  refine ⟨?_, fun m hm => ?_, fun r hr hcond => ⟨?_, ?_⟩,
    fun m ht hm => ?_, fun t ht hm hfail => ?_⟩
  · cases hv : validateCredentials w.verifyResp w.accountResp <;>
      simp [runSetup, hv, Except.isOk, Except.toBool]
  · cases hv : validateCredentials w.verifyResp w.accountResp <;>
      simp [runSetup, hv] at hm ⊢
    exact hm
  · rw [hr]; simp [checkWorkersForPlatformsAccess, hcond]
  · rw [hr]; simp [checkWorkersForPlatformsAccess, hcond, ensureDispatchNamespace]
  · rw [ht, hm]; simp [ensureDispatchToken]
  · rw [ht, hm]; simp [ensureDispatchToken, hfail]

/-- Witness for `setup_failure_semantics`: a 403 listing answer degrades to
`wfpAvailable = false` with the namespace step skipped, on a world whose
other calls would succeed. -/
theorem setup_failure_semantics_witness :
    checkWorkersForPlatformsAccess (.ok ⟨false, 403, false, none, none⟩) =
      ⟨false, none⟩ ∧
    ensureDispatchNamespace
      (checkWorkersForPlatformsAccess (.ok ⟨false, 403, false, none, none⟩))
      (.ok (mockNsCreate false)) = (.skipped, 0) :=
  (setup_failure_semantics
    ⟨.ok ⟨true, true, none⟩, .ok ⟨true, some "acct"⟩,
     .ok ⟨false, 403, false, none, none⟩, .ok (mockNsCreate false),
     .ok true, .ok ⟨true, true, none, none⟩⟩ "orig-token").2.2.1
    ⟨false, 403, false, none, none⟩ rfl (by decide)

/-- Claim C8 (counterexample): run the ensure-namespace step twice against a
stateful upstream whose create materialises the namespace, so that a second
create would be answered "already exists": the claim's "existed=true both
times" fails — the first run reports the namespace as newly created. -/
theorem ensureNamespace_twice_counterexample :
    ((mockNsCreate (ensureNsRun false).2).errors.getD []).any
        (fun e => containsSub e.message "already exists") = true ∧
    (ensureNsRun false).1 = (.created "ns-1", 1) ∧
    ((ensureNsRun false).1.1).existed = false := by
  refine ⟨by decide, by decide, by decide⟩

/-- Claim C8 (amended): ensure-namespace is idempotent — a name already in
the listing is reused with no create call (existed=true); a create answered
"already exists" is treated as success (existed=true), not failure; running
the step twice against a stateful upstream issues exactly one create attempt
in total and fails neither run: the first run creates (existed=false) and
the second reuses the listed id (existed=true). -/
theorem ensureDispatchNamespace_idempotent (probe : WfpProbe)
    (resp : Except String CreateNsResponse) :
    (∀ ns, probe.wfpAvailable = true →
      (probe.existingNamespaces.getD []).find?
          (fun n => n.name == namespaceName) = some ns →
      ensureDispatchNamespace probe resp = (.reused ns.id, 0) ∧
      (EnsureNsOutcome.reused ns.id).existed = true) ∧
    (∀ r, probe.wfpAvailable = true →
      (probe.existingNamespaces.getD []).find?
          (fun n => n.name == namespaceName) = none →
      resp = .ok r → (r.ok && r.success && truthy r.result) = false →
      (r.errors.getD []).any (fun e => containsSub e.message "already exists") = true →
      ensureDispatchNamespace probe resp = (.alreadyExists, 1) ∧
      EnsureNsOutcome.alreadyExists.existed = true) ∧
    ((ensureNsRun false).1 = (.created "ns-1", 1) ∧
     (ensureNsRun (ensureNsRun false).2).1 = (.reused "ns-1", 0) ∧
     (ensureNsRun false).1.2 + (ensureNsRun (ensureNsRun false).2).1.2 = 1 ∧
     ((ensureNsRun (ensureNsRun false).2).1.1).existed = true ∧
     (∀ m, (ensureNsRun false).1.1 ≠ .warned m) ∧
     (∀ m, (ensureNsRun (ensureNsRun false).2).1.1 ≠ .warned m)) := by
  refine ⟨fun ns hw hfind => ⟨?_, rfl⟩, fun r hw hfind hresp hfail hexist => ⟨?_, rfl⟩,
    by decide, by decide, by decide, by decide, fun m => ?_, fun m => ?_⟩
  · simp [ensureDispatchNamespace, hw, hfind]
  · rw [hresp] at *
    simp [ensureDispatchNamespace, hw, hfind, hfail, hexist]
  · have h1 : (ensureNsRun false).1.1 = .created "ns-1" := by decide
    rw [h1]; simp
  · have h2 : (ensureNsRun (ensureNsRun false).2).1.1 = .reused "ns-1" := by decide
    rw [h2]; simp

/-- Witness for `ensureDispatchNamespace_idempotent`: a create answered
"already exists" after an empty listing is treated as success with one
create attempt. -/
theorem ensureDispatchNamespace_idempotent_witness :
    ensureDispatchNamespace ⟨true, some []⟩ (.ok (mockNsCreate true)) =
      (.alreadyExists, 1) :=
  ((ensureDispatchNamespace_idempotent ⟨true, some []⟩
      (.ok (mockNsCreate true))).2.1 (mockNsCreate true) rfl rfl rfl
    (by decide) (by decide)).1

/-- Claim C9 (counterexample): a sensitive default of 8 characters or fewer
is shown in full — the token-question prompt line contains the entire value,
because masking applies only to values longer than 8 characters. -/
theorem mask_short_value_counterexample :
    isSensitiveQuestion "Cloudflare API Token" = true ∧
    maskSensitiveValue "Cloudflare API Token" "abcd1234" = "abcd1234" ∧
    containsSub (promptDisplayedLine "Cloudflare API Token" "abcd1234")
      "abcd1234" = true := by
  refine ⟨by decide, by decide, by decide⟩

/-- Claim C9 (amended): a sensitive prompted default longer than 8
characters is displayed only as its first four characters, `...`, and its
last four; sensitive values of at most 8 characters and non-sensitive values
are displayed unchanged. -/
theorem maskSensitiveValue_spec (q v : String) :
    (isSensitiveQuestion q = true → 8 < v.length →
      maskSensitiveValue q v = v.take 4 ++ "..." ++ v.drop (v.length - 4)) ∧
    (isSensitiveQuestion q = false → maskSensitiveValue q v = v) ∧
    (v.length ≤ 8 → maskSensitiveValue q v = v) := by
  refine ⟨fun hq hv => ?_, fun hq => ?_, fun hv => ?_⟩
  · simp [maskSensitiveValue, hq, hv]
  · simp [maskSensitiveValue, hq]
  · have h8 : ¬ 8 < v.length := Nat.not_lt.mpr hv
    simp [maskSensitiveValue, h8]

/-- Witness for `maskSensitiveValue_spec`: a 19-character token default is
displayed masked. -/
theorem maskSensitiveValue_spec_witness :
    maskSensitiveValue "Cloudflare API Token" "supersecretvalue123" =
      "supersecretvalue123".take 4 ++ "..." ++
        "supersecretvalue123".drop ("supersecretvalue123".length - 4) :=
  (maskSensitiveValue_spec "Cloudflare API Token" "supersecretvalue123").1
    (by decide) (by decide)

/-- Normalization only depends on the lower-cased character list, so any two
spellings of a host that agree up to case classify identically. -/
theorem normalizeHost_congr (h₁ h₂ : String)
    (h : h₁.toList.map Char.toLower = h₂.toList.map Char.toLower) :
    normalizeHost h₁ = normalizeHost h₂ := by
  have h' : List.map Char.toLower h₁.data = List.map Char.toLower h₂.data := h
  simp [normalizeHost, String.toList, h']

/-- A trailing dot is stripped by normalization. -/
theorem normalizeHost_trailing_dot (h : String) :
    normalizeHost (h ++ ".") = normalizeHost h := by
  simp [normalizeHost, String.toList]

/-- Claim C5: hostname classification — reserved platform routes are
`platform`; a `{label}.{root}` host with a dot-free label is a tenant
subdomain resolved by registry lookup on the label; any other host is a
candidate custom hostname resolved by exact lookup; no registry match is
`unresolved`; matching is case-insensitive and ignores trailing dots. The
classifier itself is modelled from the spec (its code is not under src/);
the registry lookups are embedded from the data layer. -/
theorem hostnameClassifier_cases :
    (∀ reg root h₁ h₂, h₁.toList.map Char.toLower = h₂.toList.map Char.toLower →
      classifyHostname reg root h₁ = classifyHostname reg root h₂) ∧
    (∀ reg root h, classifyHostname reg root (h ++ ".") =
      classifyHostname reg root h) ∧
    classifyHostname sampleRegistry "platform.com" "build.platform.com" =
      .platform ∧
    classifyHostname sampleRegistry "platform.com" "acme.platform.com" =
      .tenantSubdomain "acme" sampleAcme ∧
    classifyHostname sampleRegistry "platform.com" "shop.example.org" =
      .customHostname sampleShop ∧
    classifyHostname sampleRegistry "platform.com" "zeta.platform.com" =
      .unresolved ∧
    classifyHostname sampleRegistry "platform.com" "nosuch.example.net" =
      .unresolved ∧
    classifyHostname sampleRegistry "platform.com" "platform.com" = .platform := by
  refine ⟨fun reg root h₁ h₂ hmap => ?_, fun reg root h => ?_,
    by decide, by decide, by decide, by decide, by decide, by decide⟩
  · unfold classifyHostname
    rw [normalizeHost_congr h₁ h₂ hmap]
  · unfold classifyHostname
    rw [normalizeHost_trailing_dot]

/-- Witness for `hostnameClassifier_cases`: mixed-case spelling classifies
like the lower-case host, and a trailing dot is ignored. -/
theorem hostnameClassifier_cases_witness :
    classifyHostname sampleRegistry "platform.com" "ACME.Platform.Com" =
      classifyHostname sampleRegistry "platform.com" "acme.platform.com" :=
  hostnameClassifier_cases.1 sampleRegistry "platform.com" "ACME.Platform.Com"
    "acme.platform.com" (by decide)

end Platform
